import Mathlib

/-!
Verification of the Green Button → Home Assistant SQL converter
(`greenbutton-to-sql.js` and `merge-greenbutton.js`).

The JavaScript pipeline is shallowly embedded: JS numbers carrying physical
quantities are modelled as exact rationals (`ℚ`), epoch timestamps as `ℤ`,
and the xml2js parse tree as nested structures with `Option` marking absent
elements.  `Array.prototype.sort` (stable since ES2019) with the comparator
`(a, b) => a.timestamp - b.timestamp` is modelled by the stable
`List.insertionSort` on the corresponding `≤` relation, which produces the
same (unique) stable ordering.
-/

namespace GB

/-! ### Math.round semantics and 6-decimal rounding

`Math.round(x)` rounds half-way cases toward `+∞`, i.e. it is `⌊x + 1/2⌋`.
The sources round with `Math.round(x * 1000000) / 1000000`
(`greenbutton-to-sql.js` lines 268-269, `merge-greenbutton.js` 221-222). -/

/-- JS `Math.round`: round half toward positive infinity. -/
def jround (x : ℚ) : ℤ := ⌊x + 1/2⌋

/-- `Math.round(x * 1000000) / 1000000`: round to 6 decimal places. -/
def round6 (x : ℚ) : ℚ := (jround (x * 1000000) : ℚ) / 1000000

/-! ### Parse-tree data model

Shape of the xml2js output consumed by `parseGreenButtonXML`
(`greenbutton-to-sql.js` lines 100-144; `merge-greenbutton.js` 52-90).
xml2js runs with `explicitArray: true`, so every child element appears as an
array; the code reads `x && x[0]` for singletons, modelled here by `Option`
holding the first element (`none` when the key is absent or the array empty).
Leaf text is modelled as the integer `parseInt` produces for it; a
`timePeriod` element is modelled as always carrying its parsed `start` and
`duration` numbers. -/

/-- `timePeriod[0]` of an interval reading. -/
structure TimePeriod where
  start : ℤ
  duration : ℤ
deriving DecidableEq

/-- One `IntervalReading` element.  `value`, `cost`, `tou` are `none` when
the child element is absent (the code then defaults them to 0, 0 and 3). -/
structure IntervalReading where
  timePeriod : Option TimePeriod
  value : Option ℤ
  cost : Option ℤ
  tou : Option ℤ
deriving DecidableEq

/-- One `IntervalBlock` element; `intervalReading` is `none` when the block
has no `IntervalReading` children. -/
structure IntervalBlock where
  intervalReading : Option (List IntervalReading)
deriving DecidableEq

/-- The first `content` element of an entry. -/
structure Content where
  intervalBlock : Option (List IntervalBlock)
deriving DecidableEq

/-- One `entry` element; `content` is the array of content children. -/
structure Entry where
  content : Option (List Content)
deriving DecidableEq

/-- The `feed` root object. -/
structure Feed where
  entry : Option (List Entry)
deriving DecidableEq

/-- The whole xml2js result: `result.feed` is absent when the document's
root element is not named `feed`. -/
structure ParseResult where
  feed : Option Feed
deriving DecidableEq

/-! ### Readings -/

/-- An extracted interval reading (the objects pushed at
`greenbutton-to-sql.js` lines 135-141). -/
structure Reading where
  timestamp : ℤ
  consumption : ℚ
  cost : ℚ
  tou : ℤ
  touName : String
deriving DecidableEq

/-- `CONFIG.touMapping[tou] || 'Off-Peak'`. -/
def touName (t : ℤ) : String :=
  if t = 1 then "On-Peak"
  else if t = 2 then "Mid-Peak"
  else if t = 3 then "Off-Peak"
  else "Off-Peak"

/-- Body of the innermost loop (`greenbutton-to-sql.js` lines 117-142):
skip when `timePeriod` is absent, when the duration is not 3600, or when
both the (defaulted) value and cost are zero; otherwise build a `Reading`
with `value / 1000000` kWh, `cost / 100000` dollars and tou defaulting
to 3. -/
def extractReading (r : IntervalReading) : Option Reading :=
  match r.timePeriod with
  | none => none
  | some tp =>
    if tp.duration = 3600 then
      let value := r.value.getD 0
      let cost := r.cost.getD 0
      let tou := r.tou.getD 3
      if value = 0 ∧ cost = 0 then none
      else some ⟨tp.start, (value : ℚ) / 1000000, (cost : ℚ) / 100000, tou, touName tou⟩
    else none

/-- Loop over `block.IntervalReading` (absent list → the block is skipped,
which yields the same readings as an empty list). -/
def extractBlock (b : IntervalBlock) : List Reading :=
  (b.intervalReading.getD []).filterMap extractReading

/-- Loop body for one entry: take `entry.content[0]` (skip when `content`
is absent or empty), then loop over its `IntervalBlock` children. -/
def extractEntry (e : Entry) : List Reading :=
  match e.content with
  | some (c :: _) => (c.intervalBlock.getD []).flatMap extractBlock
  | _ => []

/-- The comparator `(a, b) => a.timestamp - b.timestamp` as a relation. -/
def tsLe (a b : Reading) : Prop := a.timestamp ≤ b.timestamp

instance : DecidableRel tsLe :=
  fun a b => inferInstanceAs (Decidable (a.timestamp ≤ b.timestamp))

instance : IsTotal Reading tsLe := ⟨fun a b => Int.le_total a.timestamp b.timestamp⟩

instance : IsTrans Reading tsLe := ⟨fun _ _ _ => Int.le_trans⟩

/-- `readings.sort((a, b) => a.timestamp - b.timestamp)`: the ES2019+ stable
sort, modelled by stable insertion sort on `tsLe`. -/
def sortReadings (l : List Reading) : List Reading := List.insertionSort tsLe l

/-- `parseGreenButtonXML`, after the xml2js parse succeeded
(`greenbutton-to-sql.js` lines 100-149).  When the parse tree has no `feed`
key, `result.feed.entry` throws `TypeError: Cannot read properties of
undefined`; this propagates to the caller and is modelled as `.error`. -/
def parseGreenButtonXML (t : ParseResult) : Except String (List Reading) :=
  match t.feed with
  | none => .error "TypeError: Cannot read properties of undefined (reading entry)"
  | some f => .ok (sortReadings ((f.entry.getD []).flatMap extractEntry))

/-! ### TOU grouping (`groupByTOU`, `greenbutton-to-sql.js` lines 155-178) -/

/-- The three TOU buckets. -/
structure TOUGroups where
  onPeak : List Reading
  midPeak : List Reading
  offPeak : List Reading
deriving DecidableEq

/-- `groupByTOU`: switch on `reading.tou`; case 1 → onPeak, case 2 →
midPeak, case 3 and `default` → offPeak, preserving input order. -/
def groupByTOU : List Reading → TOUGroups
  | [] => ⟨[], [], []⟩
  | r :: rs =>
    let g := groupByTOU rs
    if r.tou = 1 then ⟨r :: g.onPeak, g.midPeak, g.offPeak⟩
    else if r.tou = 2 then ⟨g.onPeak, r :: g.midPeak, g.offPeak⟩
    else ⟨g.onPeak, g.midPeak, r :: g.offPeak⟩

/-! ### Merge (`mergeReadings`, `merge-greenbutton.js` lines 99-111) -/

/-- `mergeReadings`: keep every primary reading, add the secondary readings
whose timestamp is not in the primary timestamp set, and stable-sort the
concatenation by timestamp. -/
def mergeReadings (primary secondary : List Reading) : List Reading :=
  let primaryTimestamps := primary.map Reading.timestamp
  let uniqueSecondary :=
    secondary.filter (fun r => !(primaryTimestamps.contains r.timestamp))
  sortReadings (primary ++ uniqueSecondary)

/-! ### Proleptic Gregorian calendar arithmetic

Epoch-day ↔ civil-date conversions (the standard `civil_from_days` /
`days_from_civil` algorithms), used to embed the ECMAScript `Date`
operations that `aggregateToDaily` performs. -/

/-- Civil date `(year, month, day)` of an epoch-day number (days since
1970-01-01 UTC). -/
def civilFromDays (z0 : ℤ) : ℤ × ℤ × ℤ :=
  let z := z0 + 719468
  let era := (if z ≥ 0 then z else z - 146096) / 146097
  let doe := z - era * 146097
  let yoe := (doe - doe / 1460 + doe / 36524 - doe / 146096) / 365
  let y := yoe + era * 400
  let doy := doe - (365 * yoe + yoe / 4 - yoe / 100)
  let mp := (5 * doy + 2) / 153
  let d := doy - (153 * mp + 2) / 5 + 1
  let m := if mp < 10 then mp + 3 else mp - 9
  (if m ≤ 2 then y + 1 else y, m, d)

/-- Epoch-day number of a civil date `(year, month, day)`. -/
def daysFromCivil (y0 m d : ℤ) : ℤ :=
  let y := if m ≤ 2 then y0 - 1 else y0
  let era := (if y ≥ 0 then y else y - 399) / 400
  let yoe := y - era * 400
  let doy := (153 * (if m > 2 then m - 3 else m + 9) + 2) / 5 + d - 1
  let doe := yoe * 365 + yoe / 4 - yoe / 100 + doy
  era * 146097 + doe - 719468

/-- Day of week of an epoch day, `0` = Sunday (1970-01-01 was a Thursday). -/
def dayOfWeek (days : ℤ) : ℤ := (days + 4) % 7

/-- Day of month of the first Sunday of month `m` of year `y`. -/
def firstSunday (y m : ℤ) : ℤ :=
  1 + (7 - dayOfWeek (daysFromCivil y m 1)) % 7

/-- UTC offset of the IANA zone `America/Toronto` at a given epoch second,
for the rule in force since 2007 (which covers the Green Button data
range): Eastern Daylight Time (UTC-4) from the second Sunday of March at
07:00 UTC until the first Sunday of November at 06:00 UTC, Eastern
Standard Time (UTC-5) otherwise.  This embeds the time-zone database
lookup that `Date.prototype.toLocaleString` performs. -/
def torontoOffsetSec (ts : ℤ) : ℤ :=
  let y := (civilFromDays (Int.fdiv ts 86400)).1
  let dstStart := daysFromCivil y 3 (firstSunday y 3 + 7) * 86400 + 7 * 3600
  let dstEnd := daysFromCivil y 11 (firstSunday y 11) * 86400 + 6 * 3600
  if dstStart ≤ ts ∧ ts < dstEnd then -14400 else -18000

/-- The date-key computation of `aggregateToDaily`
(`greenbutton-to-sql.js` lines 188-191):

1. `new Date(ts * 1000)` is the UTC instant `ts`;
2. `date.toLocaleString('en-US', { timeZone: 'America/Toronto' })` renders
   the Toronto wall-clock time, here as wall-clock seconds
   `ts + torontoOffsetSec ts`;
3. `new Date(thatString)` parses the wall-clock string **in the machine's
   local time zone** (modelled as a fixed offset `machineOffsetSec` east of
   UTC, as in the zones `UTC` or `Etc/GMT-10`), giving the instant
   `wall - machineOffsetSec`;
4. `.toISOString().split('T')[0]` takes the UTC calendar date of that
   instant, here as a `(year, month, day)` triple (the ISO string of a
   date in this range is its zero-padded decimal rendering, so string
   ordering and equality agree with the triple's). -/
def dateKey (machineOffsetSec ts : ℤ) : ℤ × ℤ × ℤ :=
  let wall := ts + torontoOffsetSec ts
  civilFromDays (Int.fdiv (wall - machineOffsetSec) 86400)

/-- A daily aggregate record (`aggregateToDaily`'s output objects,
`greenbutton-to-sql.js` lines 211-222): the representative timestamp is
`Date.UTC(year, month-1, day, 5, 0, 0) / 1000`, i.e. 05:00 UTC. -/
structure DailyTotal where
  timestamp : ℤ
  consumption : ℚ
  cost : ℚ
  dateKey : ℤ × ℤ × ℤ
deriving DecidableEq

/-- `dailyMap.set` / in-place update: JS `Map` preserves insertion order
and accumulates into an existing entry. -/
def upsertDaily (k : ℤ × ℤ × ℤ) (c q : ℚ) :
    List ((ℤ × ℤ × ℤ) × ℚ × ℚ) → List ((ℤ × ℤ × ℤ) × ℚ × ℚ)
  | [] => [(k, c, q)]
  | (k0, c0, q0) :: rest =>
    if k0 = k then (k0, c0 + c, q0 + q) :: rest
    else (k0, c0, q0) :: upsertDaily k c q rest

/-- Lexicographic order on date-key triples: the order
`a.date.localeCompare(b.date)` induces on the ISO date strings. -/
def dkLe (a b : ℤ × ℤ × ℤ) : Prop :=
  a.1 < b.1 ∨ (a.1 = b.1 ∧ (a.2.1 < b.2.1 ∨ (a.2.1 = b.2.1 ∧ a.2.2 ≤ b.2.2)))

instance : DecidableRel dkLe := fun _ _ => by unfold dkLe; infer_instance

instance : IsTotal (ℤ × ℤ × ℤ) dkLe := by
  constructor
  intro a b
  unfold dkLe
  omega

instance : IsTrans (ℤ × ℤ × ℤ) dkLe := by
  constructor
  intro a b c hab hbc
  unfold dkLe at hab hbc ⊢
  omega

/-- `aggregateToDaily` (`greenbutton-to-sql.js` lines 183-223): group the
readings by Toronto-calendar-date key (as computed by the machine running
with UTC offset `machineOffsetSec`), sum consumption and cost per key,
sort the groups by date key, and stamp each with 05:00 UTC of its date. -/
def aggregateToDaily (machineOffsetSec : ℤ) (readings : List Reading) :
    List DailyTotal :=
  let entries := readings.foldl
    (fun acc r => upsertDaily (dateKey machineOffsetSec r.timestamp) r.consumption r.cost acc) []
  let sorted := List.insertionSort (fun a b => dkLe a.1 b.1) entries
  sorted.map (fun e =>
    ⟨daysFromCivil e.1.1 e.1.2.1 e.1.2.2 * 86400 + 5 * 3600, e.2.1, e.2.2, e.1⟩)

/-! ### Statement generation
(`generateStatisticSQL`, `greenbutton-to-sql.js` lines 253-295,
`merge-greenbutton.js` 208-240.) -/

/-- The fields `generateStatisticSQL` reads off a series element, common to
hourly `Reading`s and `DailyTotal`s (`reading[valueField]` with
`valueField` one of `'consumption'` and `'cost'`, and
`reading.timestamp`). -/
structure TsRec where
  timestamp : ℤ
  consumption : ℚ
  cost : ℚ
deriving DecidableEq

/-- Forget a `Reading` down to the fields the generator reads. -/
def Reading.toRec (r : Reading) : TsRec := ⟨r.timestamp, r.consumption, r.cost⟩

/-- Forget a `DailyTotal` down to the fields the generator reads. -/
def DailyTotal.toRec (d : DailyTotal) : TsRec := ⟨d.timestamp, d.consumption, d.cost⟩

/-- One row pushed into `values` (`greenbutton-to-sql.js` line 282):
`created_ts`, `start_ts`, the rounded instantaneous value (`state`) and the
rounded running sum.  On these reading objects `reading.timestamp` is
always a number and no `created_ts`/`createdTs` field exists, so both
timestamps are the reading's timestamp. -/
structure StatRow where
  createdTs : ℤ
  startTs : ℤ
  state : ℚ
  sum : ℚ
deriving DecidableEq

/-- The generator's accumulation loop (`greenbutton-to-sql.js` lines
260-283): `cumulativeSum += value` adds the **raw** value; rounding to six
decimals happens only on the emitted `state` and `sum` columns. -/
def statRowsAux (valueField : TsRec → ℚ) (cumulativeSum : ℚ) :
    List TsRec → List StatRow
  | [] => []
  | r :: rs =>
    let value := valueField r
    let cum := cumulativeSum + value
    ⟨r.timestamp, r.timestamp, round6 value, round6 cum⟩ :: statRowsAux valueField cum rs

/-- The rows `generateStatisticSQL` emits for one series: the loop starts
from `cumulativeSum = 0` on every call. -/
def statRows (valueField : TsRec → ℚ) (readings : List TsRec) : List StatRow :=
  statRowsAux valueField 0 readings

/-! #### Rendering the SQL artifact as a list of text lines

The sources build one flat string joined with newlines; it is modelled
here as the list of its lines.  Decimal rendering of JS numbers is not
reproduced (no claim depends on numeral text): rationals are rendered by
`toString`. -/

/-- Render a rational for interpolation into a SQL row. -/
def ratStr (q : ℚ) : String := toString q

/-- One element of `values` (`greenbutton-to-sql.js` line 282).
(The parenthesisation of `++` is immaterial to the string value.) -/
def rowLine (statisticId : String) (row : StatRow) : String :=
  "((SELECT id FROM statistics_meta WHERE statistic_id = '" ++ (statisticId ++
    ("'), " ++ (toString row.createdTs ++ (", " ++ (toString row.startTs ++ (", " ++
    (ratStr row.state ++ (", " ++ (ratStr row.sum ++ ")")))))))))

/-- The batch header line (`greenbutton-to-sql.js` line 290). -/
def insertHeader : String :=
  "INSERT IGNORE INTO statistics (metadata_id, created_ts, start_ts, state, sum) VALUES"

/-- `batch.join(',\n') + ';'` as lines: a comma after every row but the
last, a semicolon after the last. -/
def joinRows : List String → List String
  | [] => []
  | [s] => [s ++ ";"]
  | s :: rest => (s ++ ",") :: joinRows rest

/-- The `for (let i = 0; ...; i += batchSize)` slicing
(`greenbutton-to-sql.js` lines 287-292): split into chunks of `n`. -/
def chunksOf (n : ℕ) : List α → List (List α)
  | [] => []
  | x :: xs => (x :: xs.take (n - 1)) :: chunksOf n (xs.drop (n - 1))
termination_by l => l.length
decreasing_by
  simp only [List.length_cons]
  have := List.length_drop (n - 1) xs
  omega

/-- `generateStatisticSQL` as lines: empty input yields nothing at all;
otherwise the two comment lines, then per batch of 500 a header line and
the joined rows.  (The source's leading `'\n'` becomes a blank line.) -/
def generateStatisticLines (statisticId : String) (readings : List TsRec)
    (valueField : TsRec → ℚ) : List String :=
  if readings.length = 0 then []
  else
    "" :: ("-- " ++ statisticId) ::
      ("-- " ++ (toString readings.length ++ " records")) ::
      (chunksOf 500 (statRows valueField readings)).flatMap
        (fun batch => insertHeader :: joinRows (batch.map (rowLine statisticId)))

/-- The fixed series catalogue (`CONFIG.statisticIds` and the `metas` table
of `generateMetaSQL`, `greenbutton-to-sql.js` lines 41-50 and 228-248). -/
def metaTable : List (String × String × String) :=
  [("hydroone:on_peak", "HydroOne On-Peak", "kWh"),
   ("hydroone:mid_peak", "HydroOne Mid-Peak", "kWh"),
   ("hydroone:off_peak", "HydroOne Off-Peak", "kWh"),
   ("hydroone:on_peak_cost", "HydroOne On-Peak Cost", "CAD"),
   ("hydroone:mid_peak_cost", "HydroOne Mid-Peak Cost", "CAD"),
   ("hydroone:off_peak_cost", "HydroOne Off-Peak Cost", "CAD"),
   ("hydroone:daily_usage", "HydroOne Daily Usage", "kWh"),
   ("hydroone:daily_cost", "HydroOne Daily Cost", "CAD")]

/-- One `INSERT IGNORE INTO statistics_meta ...` line
(`greenbutton-to-sql.js` line 244). -/
def metaLine (m : String × String × String) : String :=
  "INSERT IGNORE INTO statistics_meta (statistic_id, source, unit_of_measurement, has_mean, has_sum, name) VALUES ('"
    ++ m.1 ++ "', 'hydroone', '" ++ m.2.2 ++ "', 0, 1, '" ++ m.2.1 ++ "');"

/-- `generateMetaSQL` as lines (`greenbutton-to-sql.js` lines 228-248). -/
def metaLines : List String :=
  "-- Statistics Metadata" ::
    "-- Run these INSERT statements first. If records already exist, they will be ignored." ::
    "" :: metaTable.map metaLine

/-- The first clear-mode `DELETE` statement (`greenbutton-to-sql.js`
line 362). -/
def deleteStatisticsLine : String :=
  "DELETE FROM statistics WHERE metadata_id IN (SELECT id FROM statistics_meta WHERE statistic_id LIKE 'hydroone:%');"

/-- The second clear-mode `DELETE` statement (`greenbutton-to-sql.js`
line 363). -/
def deleteShortTermLine : String :=
  "DELETE FROM statistics_short_term WHERE metadata_id IN (SELECT id FROM statistics_meta WHERE statistic_id LIKE 'hydroone:%');"

/-- The `--clear` block (`greenbutton-to-sql.js` lines 359-364). -/
def clearLines : List String :=
  ["-- ==========================================",
   "-- CLEARING EXISTING DATA",
   "-- ==========================================",
   deleteStatisticsLine,
   deleteShortTermLine,
   ""]

/-- The default-mode note block (`greenbutton-to-sql.js` lines 367-371):
the `DELETE` texts appear only inside `--` comment lines. -/
def noteLines : List String :=
  ["-- NOTE: Using INSERT IGNORE to skip duplicate records.",
   "-- To clear existing data first, run with --clear flag or execute:",
   "-- DELETE FROM statistics WHERE metadata_id IN (SELECT id FROM statistics_meta WHERE statistic_id LIKE 'hydroone:%');",
   "-- DELETE FROM statistics_short_term WHERE metadata_id IN (SELECT id FROM statistics_meta WHERE statistic_id LIKE 'hydroone:%');",
   ""]

/-- The run-dependent header inputs of `main` that do not come from the
readings: `new Date().toISOString()` and `path.basename(inputPath)`. -/
structure MainParams where
  generatedAt : String
  sourceName : String
deriving DecidableEq

/-- Zero-pad a calendar component to two digits, as `toISOString` does. -/
def pad2 (n : ℤ) : String :=
  if n < 10 then "0" ++ toString n else toString n

/-- `date.toISOString().split('T')[0]` of an epoch second. -/
def isoDate (ts : ℤ) : String :=
  let c := civilFromDays (Int.fdiv ts 86400)
  toString c.1 ++ "-" ++ pad2 c.2.1 ++ "-" ++ pad2 c.2.2

/-- The section banner around the hourly statistics
(`greenbutton-to-sql.js` lines 379-381). -/
def hourlyBanner : List String :=
  ["",
   "-- ==========================================",
   "-- HOURLY TOU STATISTICS",
   "-- =========================================="]

/-- The section banner around the daily statistics
(`greenbutton-to-sql.js` lines 391-393). -/
def dailyBanner : List String :=
  ["",
   "-- ==========================================",
   "-- DAILY AGGREGATE STATISTICS",
   "-- =========================================="]

/-- The artifact `main` assembles once it holds a non-empty reading list
(`greenbutton-to-sql.js` lines 333-396), as lines: header comments, the
clear block or the note block according to the one `--clear` flag, the
metadata statements, then the eight series in order. -/
def mainSQLLines (machineOffsetSec : ℤ) (clearExisting : Bool) (p : MainParams)
    (readings : List Reading) : List String :=
  let firstTs := (readings.head?.map Reading.timestamp).getD 0
  let lastTs := (readings.getLast?.map Reading.timestamp).getD 0
  let touGroups := groupByTOU readings
  let dailyReadings := aggregateToDaily machineOffsetSec readings
  ["-- Green Button to Home Assistant Statistics Import",
   "-- Generated: " ++ p.generatedAt,
   "-- Source: " ++ p.sourceName,
   "-- Date range: " ++ (isoDate firstTs ++ (" to " ++ isoDate lastTs)),
   "-- Total hourly readings: " ++ toString readings.length,
   "-- Total daily records: " ++ toString dailyReadings.length,
   ""]
  ++ (if clearExisting then clearLines else noteLines)
  ++ metaLines ++ [""]
  ++ hourlyBanner
  ++ generateStatisticLines "hydroone:on_peak" (touGroups.onPeak.map Reading.toRec) TsRec.consumption
  ++ generateStatisticLines "hydroone:mid_peak" (touGroups.midPeak.map Reading.toRec) TsRec.consumption
  ++ generateStatisticLines "hydroone:off_peak" (touGroups.offPeak.map Reading.toRec) TsRec.consumption
  ++ generateStatisticLines "hydroone:on_peak_cost" (touGroups.onPeak.map Reading.toRec) TsRec.cost
  ++ generateStatisticLines "hydroone:mid_peak_cost" (touGroups.midPeak.map Reading.toRec) TsRec.cost
  ++ generateStatisticLines "hydroone:off_peak_cost" (touGroups.offPeak.map Reading.toRec) TsRec.cost
  ++ dailyBanner
  ++ generateStatisticLines "hydroone:daily_usage" (dailyReadings.map DailyTotal.toRec) TsRec.consumption
  ++ generateStatisticLines "hydroone:daily_cost" (dailyReadings.map DailyTotal.toRec) TsRec.cost

/-- How a run of `main` ends before writing any artifact. -/
inductive MainError where
  /-- The awaited `parseGreenButtonXML` promise rejected; `main`'s `catch`
  prints the message and calls `process.exit(1)`. -/
  | parseFault (msg : String)
  /-- `readings.length === 0`: "No valid readings found in XML file",
  `process.exit(1)` (`greenbutton-to-sql.js` lines 328-331). -/
  | noValidReadings
deriving DecidableEq

/-- `main` from the parse on (`greenbutton-to-sql.js` lines 324-399):
parse, abort with a non-zero exit when no reading qualified, otherwise
write the assembled artifact.  `.error` models `process.exit(1)` with
nothing written. -/
def runMain (machineOffsetSec : ℤ) (clearExisting : Bool) (p : MainParams)
    (t : ParseResult) : Except MainError (List String) :=
  match parseGreenButtonXML t with
  | .error e => .error (.parseFault e)
  | .ok readings =>
    if readings.length = 0 then .error .noValidReadings
    else .ok (mainSQLLines machineOffsetSec clearExisting p readings)

/-- `timePeriod[0].duration` of a candidate interval reading, when present. -/
def durationOf (r : IntervalReading) : Option ℤ :=
  r.timePeriod.map TimePeriod.duration

/-- Whether a line of the artifact is a `DELETE` statement (a SQL statement
whose text begins with the keyword `DELETE`; a `-- ...` comment line never
is one, whatever text it quotes). -/
def isDeleteLine (l : String) : Bool := decide (l.data.take 6 = "DELETE".data)

/-- Whether a line of the artifact is blank or a `--` comment line. -/
def isCommentOrBlank (l : String) : Bool :=
  decide (l.data = [] ∨ l.data.take 2 = ['-', '-'])

/-- A two-element series whose raw values each round to 0 at 6 decimals
while their exact sum rounds to `1/1000000` (the C10 contrast input). -/
def demoSeries : List TsRec :=
  [⟨1700000000, 1/2500000, 0⟩, ⟨1700003600, 1/2500000, 0⟩]

/-- A document whose single block holds two hourly readings and, between
them, one 1800-second reading (the C8 scenario input). -/
def docWithHalfHour : ParseResult :=
  ⟨some ⟨some [⟨some [⟨some [⟨some [
    ⟨some ⟨1700000000, 3600⟩, some 500000, some 10000, some 1⟩,
    ⟨some ⟨1700003600, 1800⟩, some 400000, some 8000, some 2⟩,
    ⟨some ⟨1700007200, 3600⟩, some 300000, some 6000, some 3⟩]⟩]⟩]⟩]⟩⟩

/-- A document whose interval readings all have zero value and zero cost
(the C7 scenario input). -/
def docOnlyZeros : ParseResult :=
  ⟨some ⟨some [⟨some [⟨some [⟨some [
    ⟨some ⟨1700000000, 3600⟩, some 0, some 0, some 1⟩,
    ⟨some ⟨1700003600, 3600⟩, none, none, some 3⟩,
    ⟨some ⟨1700007200, 3600⟩, some 0, none, none⟩]⟩]⟩]⟩]⟩⟩

/-! ### Supporting lemmas -/

theorem groupByTOU_onPeak (rs : List Reading) :
    (groupByTOU rs).onPeak = rs.filter (fun r => r.tou == 1) := by
  induction rs with
  | nil => rfl
  | cons r rs ih =>
    by_cases h1 : r.tou = 1 <;> by_cases h2 : r.tou = 2 <;>
      simp_all [groupByTOU]

theorem groupByTOU_midPeak (rs : List Reading) :
    (groupByTOU rs).midPeak = rs.filter (fun r => r.tou == 2) := by
  induction rs with
  | nil => rfl
  | cons r rs ih =>
    by_cases h1 : r.tou = 1 <;> by_cases h2 : r.tou = 2 <;>
      simp_all [groupByTOU]

theorem groupByTOU_offPeak (rs : List Reading) :
    (groupByTOU rs).offPeak
      = rs.filter (fun r => !(r.tou == 1) && !(r.tou == 2)) := by
  induction rs with
  | nil => rfl
  | cons r rs ih =>
    by_cases h1 : r.tou = 1 <;> by_cases h2 : r.tou = 2 <;>
      simp_all [groupByTOU]

theorem groupByTOU_perm (rs : List Reading) :
    ((groupByTOU rs).onPeak ++ (groupByTOU rs).midPeak ++ (groupByTOU rs).offPeak).Perm
      rs := by
  induction rs with
  | nil => rfl
  | cons r rs ih =>
    by_cases h1 : r.tou = 1
    · simpa [groupByTOU, h1] using ih.cons r
    · by_cases h2 : r.tou = 2
      · simp only [groupByTOU, h1, h2, if_false, if_true]
        refine List.Perm.trans ?_ (ih.cons r)
        exact (List.perm_middle.append_right _).trans (List.Perm.refl _)
      · simp only [groupByTOU, h1, h2, if_false]
        refine List.Perm.trans ?_ (ih.cons r)
        have := @List.perm_middle _ r
          ((groupByTOU rs).onPeak ++ (groupByTOU rs).midPeak) (groupByTOU rs).offPeak
        simpa [List.append_assoc] using this

theorem round6_mono {x y : ℚ} (h : x ≤ y) : round6 x ≤ round6 y := by
  unfold round6 jround
  have hm : x * 1000000 + 1/2 ≤ y * 1000000 + 1/2 := by nlinarith
  have hf : (⌊x * 1000000 + 1/2⌋ : ℤ) ≤ ⌊y * 1000000 + 1/2⌋ := Int.floor_le_floor hm
  have : ((⌊x * 1000000 + 1/2⌋ : ℤ) : ℚ) ≤ ((⌊y * 1000000 + 1/2⌋ : ℤ) : ℚ) :=
    Int.cast_le.mpr hf
  linarith

theorem abs_round6_sub_le (x : ℚ) : |round6 x - x| ≤ 1/2000000 := by
  unfold round6 jround
  have h1 : ((⌊x * 1000000 + 1/2⌋ : ℤ) : ℚ) ≤ x * 1000000 + 1/2 := Int.floor_le _
  have h2 : x * 1000000 + 1/2 < ((⌊x * 1000000 + 1/2⌋ : ℤ) : ℚ) + 1 :=
    Int.lt_floor_add_one _
  rw [abs_le]
  constructor <;> [nlinarith; nlinarith]

theorem round6_add_err (a v : ℚ) : |round6 (a + v) - round6 a - v| ≤ 1/1000000 := by
  have h1 := abs_le.mp (abs_round6_sub_le (a + v))
  have h2 := abs_le.mp (abs_round6_sub_le a)
  rw [abs_le]
  constructor <;> [linarith [h1.1, h2.2]; linarith [h1.2, h2.1]]

theorem statRowsAux_length (f : TsRec → ℚ) (acc : ℚ) (rs : List TsRec) :
    (statRowsAux f acc rs).length = rs.length := by
  induction rs generalizing acc with
  | nil => rfl
  | cons r rs ih => simp [statRowsAux, ih]

theorem statRowsAux_state (f : TsRec → ℚ) (acc : ℚ) (rs : List TsRec) :
    (statRowsAux f acc rs).map StatRow.state = (rs.map f).map round6 := by
  induction rs generalizing acc with
  | nil => rfl
  | cons r rs ih => simp [statRowsAux, ih]

theorem statRowsAux_sum (f : TsRec → ℚ) (acc : ℚ) (rs : List TsRec) (i : ℕ)
    (h : i < rs.length) :
    ((statRowsAux f acc rs).map StatRow.sum).getD i 0
      = round6 (acc + ((rs.map f).take (i + 1)).sum) := by
  induction rs generalizing acc i with
  | nil => simp at h
  | cons r rs ih =>
    cases i with
    | zero => simp [statRowsAux]
    | succ n =>
      have hn : n < rs.length := by simpa using h
      simp only [statRowsAux, List.map_cons, List.getD_cons_succ]
      rw [ih _ _ hn]
      congr 1
      simp only [List.take_succ_cons, List.sum_cons]
      ring

theorem sum_take_mono {l : List ℚ} (hn : ∀ v ∈ l, 0 ≤ v) {i j : ℕ} (hij : i ≤ j) :
    (l.take i).sum ≤ (l.take j).sum := by
  have hj : l.take j = l.take i ++ (l.drop i).take (j - i) := by
    rw [← List.take_add]
    congr 1
    omega
  rw [hj, List.sum_append]
  have : 0 ≤ ((l.drop i).take (j - i)).sum := by
    apply List.sum_nonneg
    intro x hx
    exact hn x (List.mem_of_mem_drop (List.mem_of_mem_take hx))
  linarith

/-! ### Claims -/

/-- C1 (code_bug evaluation): the daily aggregation's date-key assignment
is **not** independent of the machine's configured time zone.  The code
parses the Toronto wall-clock string with `new Date(...)`, which reads it
in the machine's local zone: for the UTC instant 1700028000
(2023-11-15T06:00:00Z, Toronto wall clock 2023-11-15 01:00 EST), a machine
at UTC offset 0 assigns the key 2023-11-15 while a machine at UTC+10
(offset 36000 s) assigns 2023-11-14, so the resulting `DailyTotal` records
differ between the two runs, although the spec requires them to be
identical. -/
theorem claim_C1_machine_zone_dependent :
    dateKey 0 1700028000 ≠ dateKey 36000 1700028000
    ∧ aggregateToDaily 0 [⟨1700028000, 1/2, 1/10, 1, "On-Peak"⟩]
      ≠ aggregateToDaily 36000 [⟨1700028000, 1/2, 1/10, 1, "On-Peak"⟩] := by
  constructor <;> decide

/-- C2 (counterexample): a successfully parsed document whose parse tree
lacks the `feed` root is **not** answered with an empty reading sequence:
`result.feed.entry` throws a `TypeError`, surfaced to the caller as a
fatal error, refuting the claim as stated. -/
theorem claim_C2_counterexample :
    parseGreenButtonXML ⟨none⟩ =
      .error "TypeError: Cannot read properties of undefined (reading entry)" := rfl

/-- C2 (amended): when the parse tree has a `feed` root, a missing entry
list yields an empty sequence and a missing (or empty) `content` element
makes its entry contribute nothing, with no error; a parse tree lacking
the `feed` root, however, is surfaced as a fatal `TypeError`, like
malformed markup. -/
theorem claim_C2_amended (t : ParseResult) :
    (∀ f, t.feed = some f → ∃ rs, parseGreenButtonXML t = .ok rs)
    ∧ (∀ f, t.feed = some f → f.entry = none → parseGreenButtonXML t = .ok [])
    ∧ (∀ e : Entry, e.content = none ∨ e.content = some [] → extractEntry e = [])
    ∧ (t.feed = none →
        parseGreenButtonXML t =
          .error "TypeError: Cannot read properties of undefined (reading entry)") := by
  refine ⟨?_, ?_, ?_, ?_⟩
  · intro f hf
    refine ⟨sortReadings ((f.entry.getD []).flatMap extractEntry), ?_⟩
    simp [parseGreenButtonXML, hf]
  · intro f hf he
    simp [parseGreenButtonXML, hf, he, sortReadings]
  · intro e he
    rcases he with h | h <;> simp [extractEntry, h]
  · intro hf
    simp [parseGreenButtonXML, hf]

/-- C2 (witness). -/
theorem claim_C2_amended_witness :
    parseGreenButtonXML ⟨some ⟨none⟩⟩ = .ok [] :=
  (claim_C2_amended ⟨some ⟨none⟩⟩).2.1 ⟨none⟩ rfl rfl

/-- C5: merging an extractor-produced (hence timestamp-ascending) sequence
with itself returns it unchanged: the secondary pass filters out every
reading (its timestamp is in the primary set), and the stable sort leaves
the already-sorted primary sequence as it is. -/
theorem claim_C5_merge_idempotent (s : List Reading) (hs : List.Sorted tsLe s) :
    mergeReadings s s = s := by
  have hfilter :
      s.filter (fun r => !((s.map Reading.timestamp).contains r.timestamp)) = [] := by
    rw [List.filter_eq_nil_iff]
    intro r hr
    simp only [Bool.not_eq_true', Bool.not_eq_false]
    exact List.elem_iff.mpr (List.mem_map_of_mem Reading.timestamp hr)
  simp only [mergeReadings, hfilter, List.append_nil, sortReadings]
  exact hs.insertionSort_eq

/-- C5 (witness). -/
theorem claim_C5_witness :
    mergeReadings
      [⟨100, 1, 1, 1, "On-Peak"⟩, ⟨200, 2, 2, 3, "Off-Peak"⟩]
      [⟨100, 1, 1, 1, "On-Peak"⟩, ⟨200, 2, 2, 3, "Off-Peak"⟩]
      = [⟨100, 1, 1, 1, "On-Peak"⟩, ⟨200, 2, 2, 3, "Off-Peak"⟩] :=
  claim_C5_merge_idempotent _ (by decide)

/-- C6: `groupByTOU` is a lossless, order-preserving three-way partition:
each bucket is the corresponding filter of the input (tou 1 → on-peak,
tou 2 → mid-peak, everything else → off-peak, so the buckets are pairwise
disjoint by their mutually exclusive predicates), the bucket sizes sum to
the input length, their concatenation is a permutation of the input, and
each bucket is a sublist (preserves relative input order). -/
theorem claim_C6_partition (rs : List Reading) :
    (groupByTOU rs).onPeak = rs.filter (fun r => r.tou == 1)
    ∧ (groupByTOU rs).midPeak = rs.filter (fun r => r.tou == 2)
    ∧ (groupByTOU rs).offPeak = rs.filter (fun r => !(r.tou == 1) && !(r.tou == 2))
    ∧ (groupByTOU rs).onPeak.length + (groupByTOU rs).midPeak.length
        + (groupByTOU rs).offPeak.length = rs.length
    ∧ ((groupByTOU rs).onPeak ++ (groupByTOU rs).midPeak
        ++ (groupByTOU rs).offPeak).Perm rs
    ∧ (groupByTOU rs).onPeak.Sublist rs
    ∧ (groupByTOU rs).midPeak.Sublist rs
    ∧ (groupByTOU rs).offPeak.Sublist rs := by
  refine ⟨groupByTOU_onPeak rs, groupByTOU_midPeak rs, groupByTOU_offPeak rs,
    ?_, groupByTOU_perm rs, ?_, ?_, ?_⟩
  · have := (groupByTOU_perm rs).length_eq
    simp only [List.length_append] at this
    omega
  · rw [groupByTOU_onPeak]; exact List.filter_sublist rs
  · rw [groupByTOU_midPeak]; exact List.filter_sublist rs
  · rw [groupByTOU_offPeak]; exact List.filter_sublist rs

/-- C8: only interval readings whose declared duration is exactly 3600
seconds are retained — any reading whose `timePeriod` is absent or whose
duration differs from 3600 is silently skipped — and on the concrete
scenario document a 1800-second reading lying between two valid hourly
readings is excluded from the output (2 readings, not 3). -/
theorem claim_C8_hourly_only :
    (∀ r : IntervalReading, durationOf r ≠ some 3600 → extractReading r = none)
    ∧ (parseGreenButtonXML docWithHalfHour).toOption.map (List.map Reading.timestamp)
        = some [1700000000, 1700007200] := by
  constructor
  · intro r h
    match hr : r.timePeriod with
    | none => simp [extractReading, hr]
    | some tp =>
      have : tp.duration ≠ 3600 := by
        simp [durationOf, hr] at h
        exact h
      simp [extractReading, hr, this]
  · decide

/-- C8 (witness). -/
theorem claim_C8_witness :
    extractReading ⟨some ⟨1700003600, 1800⟩, some 400000, some 8000, some 2⟩ = none :=
  claim_C8_hourly_only.1 _ (by decide)

/-- C3: `generateStatisticSQL` emits one row per reading; the emitted state
column is the 6-decimal rounding of the raw value; the emitted sum column
at index `i` is the 6-decimal rounding of the raw running sum
`v_0 + ... + v_i` started from the zero baseline of this series (so
`sum_0 = value_0` and `sum_i = sum_{i-1} + value_i` before rounding, never
carried in from another series); and for non-negative values the emitted
sum sequence is non-decreasing with `sum_i - sum_{i-1}` within `1/1000000`
of `value_i`. -/
theorem claim_C3_cumulative_sums (rs : List TsRec) (f : TsRec → ℚ) :
    (statRows f rs).length = rs.length
    ∧ (statRows f rs).map StatRow.state = (rs.map f).map round6
    ∧ (∀ i, i < rs.length →
        ((statRows f rs).map StatRow.sum).getD i 0
          = round6 (((rs.map f).take (i + 1)).sum))
    ∧ ((∀ v ∈ rs.map f, 0 ≤ v) →
        List.Pairwise (· ≤ ·) ((statRows f rs).map StatRow.sum)
        ∧ ∀ i, i + 1 < rs.length →
            |((statRows f rs).map StatRow.sum).getD (i + 1) 0
              - ((statRows f rs).map StatRow.sum).getD i 0
              - (rs.map f).getD (i + 1) 0| ≤ 1/1000000) := by
  have hlen : (statRows f rs).length = rs.length := statRowsAux_length f 0 rs
  have hsum : ∀ i, i < rs.length →
      ((statRows f rs).map StatRow.sum).getD i 0
        = round6 (((rs.map f).take (i + 1)).sum) := by
    intro i hi
    have := statRowsAux_sum f 0 rs i hi
    simpa [statRows] using this
  refine ⟨hlen, statRowsAux_state f 0 rs, hsum, ?_⟩
  intro hnn
  have hmaplen : ((statRows f rs).map StatRow.sum).length = rs.length := by
    simp [hlen]
  constructor
  · rw [List.pairwise_iff_getElem]
    intro i j hi hj hij
    have hi2 : i < rs.length := by omega
    have hj2 : j < rs.length := by omega
    have gi : ((statRows f rs).map StatRow.sum)[i]
        = ((statRows f rs).map StatRow.sum).getD i 0 :=
      (List.getD_eq_getElem _ 0 hi).symm
    have gj : ((statRows f rs).map StatRow.sum)[j]
        = ((statRows f rs).map StatRow.sum).getD j 0 :=
      (List.getD_eq_getElem _ 0 hj).symm
    rw [gi, gj, hsum i hi2, hsum j hj2]
    exact round6_mono (sum_take_mono hnn (by omega))
  · intro i hi
    have hi1 : i < rs.length := by omega
    have hi2 : i + 1 < rs.length := hi
    have hlenmap : i + 1 < (rs.map f).length := by simpa using hi2
    rw [hsum i hi1, hsum (i + 1) hi2]
    have hstep : ((rs.map f).take (i + 1 + 1)).sum
        = ((rs.map f).take (i + 1)).sum + (rs.map f)[i + 1] :=
      List.sum_take_succ _ _ _
    have hgetD : (rs.map f).getD (i + 1) 0 = (rs.map f)[i + 1] :=
      List.getD_eq_getElem _ 0 hlenmap
    rw [hgetD, hstep]
    exact round6_add_err _ _

/-- C3 (witness). -/
theorem claim_C3_witness :
    List.Pairwise (· ≤ ·)
      ((statRows TsRec.consumption
        [⟨1700000000, 1, 0⟩, ⟨1700003600, 1, 0⟩]).map StatRow.sum) :=
  ((claim_C3_cumulative_sums
      [⟨1700000000, 1, 0⟩, ⟨1700003600, 1, 0⟩] TsRec.consumption).2.2.2
    (by simp)).1

/-- C10: the running accumulator adds raw, unrounded values, and rounding
happens only at emission: the emitted sum at index `i` is
`round6 (v_0 + ... + v_i)` over raw values.  On the concrete two-element
series whose raw values each round to zero, the emitted second sum is
`1/1000000` while the sum of the individually rounded values is `0`:
per-row rounding never compounds into the emitted sum. -/
theorem claim_C10_raw_accumulator (rs : List TsRec) (f : TsRec → ℚ) (i : ℕ)
    (h : i < rs.length) :
    ((statRows f rs).map StatRow.sum).getD i 0
      = round6 (((rs.map f).take (i + 1)).sum)
    ∧ ((statRows TsRec.consumption demoSeries).map StatRow.sum).getD 1 0
        = 1/1000000
    ∧ (((demoSeries.map TsRec.consumption).map round6).take 2).sum = 0 := by
  refine ⟨by simpa [statRows] using statRowsAux_sum f 0 rs i h, ?_, ?_⟩
  · show ((statRowsAux TsRec.consumption 0 demoSeries).map StatRow.sum).getD 1 0
        = 1/1000000
    simp only [demoSeries, statRowsAux, List.map_cons, List.map_nil,
      List.getD_cons_succ, List.getD_cons_zero]
    unfold round6 jround
    norm_num
  · simp only [demoSeries, List.map_cons, List.map_nil, List.take, List.sum_cons,
      List.sum_nil]
    unfold round6 jround
    norm_num

/-- C10 (witness). -/
theorem claim_C10_witness :
    ((statRows TsRec.consumption demoSeries).map StatRow.sum).getD 0 0
      = round6 (((demoSeries.map TsRec.consumption).take 1).sum) :=
  (claim_C10_raw_accumulator demoSeries TsRec.consumption 0 (by decide)).1

/-- C4: the merged sequence is a permutation of the primary readings plus
exactly those secondary readings whose timestamp is absent from the
primary timestamp set, it is sorted ascending by timestamp, and for a
timestamp `T` carried by exactly one primary reading and also present in
the secondary input, the merged output's readings at `T` are exactly the
primary's one (the secondary reading at `T` is discarded entirely). -/
theorem claim_C4_merge_semantics (primary secondary : List Reading) :
    (mergeReadings primary secondary).Perm
      (primary ++ secondary.filter
        (fun r => !((primary.map Reading.timestamp).contains r.timestamp)))
    ∧ List.Sorted tsLe (mergeReadings primary secondary)
    ∧ ∀ T : ℤ,
        (primary.filter (fun r => r.timestamp == T)).length = 1 →
        (∃ s ∈ secondary, s.timestamp = T) →
        (mergeReadings primary secondary).filter (fun r => r.timestamp == T)
          = primary.filter (fun r => r.timestamp == T) := by
  have hperm : (mergeReadings primary secondary).Perm
      (primary ++ secondary.filter
        (fun r => !((primary.map Reading.timestamp).contains r.timestamp))) := by
    simpa [mergeReadings, sortReadings] using
      List.perm_insertionSort tsLe
        (primary ++ secondary.filter
          (fun r => !((primary.map Reading.timestamp).contains r.timestamp)))
  refine ⟨hperm, ?_, ?_⟩
  · simpa [mergeReadings, sortReadings] using
      List.sorted_insertionSort tsLe
        (primary ++ secondary.filter
          (fun r => !((primary.map Reading.timestamp).contains r.timestamp)))
  · intro T hlen hsec
    obtain ⟨a, ha⟩ := List.length_eq_one.mp hlen
    have hamem : a ∈ primary.filter (fun r => r.timestamp == T) := by
      rw [ha]; exact List.mem_singleton_self a
    have haP : a ∈ primary := (List.mem_filter.mp hamem).1
    have haT : a.timestamp = T := by
      have := (List.mem_filter.mp hamem).2
      simpa using this
    have hTin : T ∈ primary.map Reading.timestamp :=
      haT ▸ List.mem_map_of_mem Reading.timestamp haP
    have hnil : (secondary.filter
        (fun r => !((primary.map Reading.timestamp).contains r.timestamp))).filter
          (fun r => r.timestamp == T) = [] := by
      rw [List.filter_eq_nil_iff]
      intro r hr hT
      have hkeep := (List.mem_filter.mp hr).2
      have hrT : r.timestamp = T := by simpa using hT
      rw [hrT] at hkeep
      simp [List.elem_iff.mpr hTin] at hkeep
      exact hkeep a haP haT
    have hf := hperm.filter (fun r => r.timestamp == T)
    rw [List.filter_append, hnil, List.append_nil, ha] at hf
    rw [ha]
    exact List.perm_singleton.mp hf

/-- C4 (witness). -/
theorem claim_C4_witness :
    (mergeReadings [⟨100, 1, 1, 1, "On-Peak"⟩]
        [⟨100, 2, 2, 3, "Off-Peak"⟩, ⟨200, 2, 2, 3, "Off-Peak"⟩]).filter
        (fun r => r.timestamp == 100)
      = [⟨100, 1, 1, 1, "On-Peak"⟩].filter (fun r => r.timestamp == 100) :=
  (claim_C4_merge_semantics _ _).2.2 100 (by decide)
    ⟨⟨100, 2, 2, 3, "Off-Peak"⟩, List.mem_cons_self _ _, rfl⟩

/-- C7: a candidate interval reading whose defaulted value and cost are
both zero is discarded at extraction time; a document that parses to zero
qualifying readings makes `main` exit fatally with "No valid readings
found" instead of writing an empty artifact; and the concrete document
holding only zero-value, zero-cost readings does exactly that. -/
theorem claim_C7_zero_and_empty_fatal :
    (∀ r : IntervalReading,
        r.value.getD 0 = 0 → r.cost.getD 0 = 0 → extractReading r = none)
    ∧ (∀ (mo : ℤ) (clear : Bool) (p : MainParams) (t : ParseResult),
        parseGreenButtonXML t = .ok [] →
        runMain mo clear p t = .error .noValidReadings)
    ∧ parseGreenButtonXML docOnlyZeros = .ok []
    ∧ (∀ (mo : ℤ) (clear : Bool) (p : MainParams),
        runMain mo clear p docOnlyZeros = .error .noValidReadings) := by
  refine ⟨?_, ?_, rfl, ?_⟩
  · intro r hv hc
    match hr : r.timePeriod with
    | none => simp [extractReading, hr]
    | some tp =>
      by_cases hd : tp.duration = 3600 <;> simp [extractReading, hr, hd, hv, hc]
  · intro mo clear p t h
    unfold runMain
    rw [h]
    rfl
  · intro mo clear p
    rfl

/-- C7 (witness). -/
theorem claim_C7_witness :
    extractReading ⟨some ⟨1700000000, 3600⟩, some 0, none, some 1⟩ = none :=
  claim_C7_zero_and_empty_fatal.1 _ (by decide) (by decide)

theorem take_data_append (a b : String) (n : ℕ) (h : n ≤ a.data.length) :
    (a ++ b).data.take n = a.data.take n := by
  rw [String.data_append, List.take_append_of_le_length h]

theorem data_length_append (a b : String) :
    (a ++ b).data.length = a.data.length + b.data.length := by
  rw [String.data_append, List.length_append]

theorem isDeleteLine_of_take_one (l : String) (c : Char) (hc : l.data.take 1 = [c])
    (hD : c ≠ 'D') : isDeleteLine l = false := by
  unfold isDeleteLine
  apply decide_eq_false
  intro heq
  have h1 := congrArg (List.take 1) heq
  rw [List.take_take] at h1
  simp only [Nat.min_def] at h1
  norm_num at h1
  rw [hc] at h1
  injection h1 with h1a h1b
  exact hD h1a

theorem isDeleteLine_append_lit (a b : String) (c : Char) (ha : a.data.take 1 = [c])
    (hD : c ≠ 'D') (hlen : 1 ≤ a.data.length) : isDeleteLine (a ++ b) = false :=
  isDeleteLine_of_take_one _ c (by rw [take_data_append _ _ 1 hlen]; exact ha) hD

theorem isCommentOrBlank_append (a b : String) (h2 : a.data.take 2 = ['-', '-'])
    (hlen : 2 ≤ a.data.length) : isCommentOrBlank (a ++ b) = true := by
  unfold isCommentOrBlank
  apply decide_eq_true
  right
  rw [take_data_append _ _ 2 hlen]
  exact h2

theorem mem_joinRows {l : String} {xs : List String} (h : l ∈ joinRows xs) :
    ∃ x ∈ xs, l = x ++ "," ∨ l = x ++ ";" := by
  induction xs with
  | nil => simp [joinRows] at h
  | cons x xs ih =>
    cases xs with
    | nil =>
      simp only [joinRows, List.mem_singleton] at h
      exact ⟨x, by simp, Or.inr h⟩
    | cons y ys =>
      rcases List.mem_cons.mp h with h1 | h2
      · exact ⟨x, by simp, Or.inl h1⟩
      · obtain ⟨z, hz, hor⟩ := ih h2
        exact ⟨z, List.mem_cons_of_mem x hz, hor⟩

theorem isDeleteLine_rowLine (id : String) (row : StatRow) (suffix : String) :
    isDeleteLine (rowLine id row ++ suffix) = false := by
  have hlit : (1 : ℕ) ≤
      ("((SELECT id FROM statistics_meta WHERE statistic_id = '").data.length := by
    decide
  have h1 : (rowLine id row).data.take 1 = ['('] := by
    unfold rowLine
    rw [take_data_append _ _ 1 hlit]
    decide
  have hlen : 1 ≤ (rowLine id row).data.length := by
    unfold rowLine
    rw [data_length_append]
    omega
  exact isDeleteLine_of_take_one _ '('
    (by rw [take_data_append _ _ 1 hlen]; exact h1) (by decide)

theorem notDelete_statLines (id : String) (rs : List TsRec) (f : TsRec → ℚ) :
    ∀ l ∈ generateStatisticLines id rs f, isDeleteLine l = false := by
  intro l hl
  unfold generateStatisticLines at hl
  by_cases h0 : rs.length = 0
  · simp [h0] at hl
  · rw [if_neg h0] at hl
    simp only [List.mem_cons] at hl
    rcases hl with h | h | h | h
    · subst h; decide
    · subst h
      exact isDeleteLine_append_lit "-- " id '-' (by decide) (by decide) (by decide)
    · subst h
      exact isDeleteLine_append_lit "-- " _ '-' (by decide) (by decide) (by decide)
    · obtain ⟨batch, _, hmem⟩ := List.mem_flatMap.mp h
      rcases List.mem_cons.mp hmem with h1 | h2
      · subst h1; decide
      · obtain ⟨x, hx, hor⟩ := mem_joinRows h2
        obtain ⟨row, _, hxe⟩ := List.mem_map.mp hx
        rcases hor with he | he <;>
          (subst he; rw [← hxe]; exact isDeleteLine_rowLine id row _)

theorem notDelete_headerList (s1 s2 s3 s4 s5 : String) :
    ∀ x ∈ ["-- Green Button to Home Assistant Statistics Import",
           "-- Generated: " ++ s1, "-- Source: " ++ s2,
           "-- Date range: " ++ s3, "-- Total hourly readings: " ++ s4,
           "-- Total daily records: " ++ s5, ""],
      isDeleteLine x = false := by
  intro x hx
  simp only [List.mem_cons, List.not_mem_nil, or_false] at hx
  rcases hx with h | h | h | h | h | h | h <;> subst h
  · decide
  · exact isDeleteLine_append_lit _ _ '-' (by decide) (by decide) (by decide)
  · exact isDeleteLine_append_lit _ _ '-' (by decide) (by decide) (by decide)
  · exact isDeleteLine_append_lit _ _ '-' (by decide) (by decide) (by decide)
  · exact isDeleteLine_append_lit _ _ '-' (by decide) (by decide) (by decide)
  · exact isDeleteLine_append_lit _ _ '-' (by decide) (by decide) (by decide)
  · decide

theorem comment_headerList (s1 s2 s3 s4 s5 : String) :
    ∀ x ∈ ["-- Green Button to Home Assistant Statistics Import",
           "-- Generated: " ++ s1, "-- Source: " ++ s2,
           "-- Date range: " ++ s3, "-- Total hourly readings: " ++ s4,
           "-- Total daily records: " ++ s5, ""],
      isCommentOrBlank x = true := by
  intro x hx
  simp only [List.mem_cons, List.not_mem_nil, or_false] at hx
  rcases hx with h | h | h | h | h | h | h <;> subst h
  · decide
  · exact isCommentOrBlank_append _ _ (by decide) (by decide)
  · exact isCommentOrBlank_append _ _ (by decide) (by decide)
  · exact isCommentOrBlank_append _ _ (by decide) (by decide)
  · exact isCommentOrBlank_append _ _ (by decide) (by decide)
  · exact isCommentOrBlank_append _ _ (by decide) (by decide)
  · decide

theorem dropWhile_append_all {α : Type} (p : α → Bool) (A B : List α)
    (hA : ∀ x ∈ A, p x = true) : (A ++ B).dropWhile p = B.dropWhile p := by
  induction A with
  | nil => rfl
  | cons a A ih =>
    rw [List.cons_append, List.dropWhile_cons, if_pos (hA a (by simp))]
    exact ih (fun x hx => hA x (List.mem_cons_of_mem a hx))

theorem countP_statLines (id : String) (rs : List TsRec) (f : TsRec → ℚ) :
    (generateStatisticLines id rs f).countP isDeleteLine = 0 :=
  List.countP_eq_zero.mpr (fun l hl => by
    simp [notDelete_statLines id rs f l hl])

/-- C9: in clear mode, the artifact's first lines after the leading comment
lines are exactly the two `DELETE` statements (each scoped by
`statistic_id LIKE 'hydroone:%'` to this system's own series), and those
are the only delete statements in the whole artifact (the mode is applied
once, not per series); in default mode no line of the artifact is a
`DELETE` statement at all. -/
theorem claim_C9_clear_vs_default (mo : ℤ) (p : MainParams)
    (readings : List Reading) :
    ((mainSQLLines mo true p readings).dropWhile isCommentOrBlank).take 2
      = [deleteStatisticsLine, deleteShortTermLine]
    ∧ (mainSQLLines mo true p readings).countP isDeleteLine = 2
    ∧ ∀ l ∈ mainSQLLines mo false p readings, isDeleteLine l = false := by
  refine ⟨?_, ?_, ?_⟩
  · unfold mainSQLLines
    simp only [if_true, List.append_assoc]
    rw [dropWhile_append_all _ _ _ (comment_headerList _ _ _ _ _)]
    have e1 : isCommentOrBlank "-- ==========================================" = true := by
      decide
    have e2 : isCommentOrBlank "-- CLEARING EXISTING DATA" = true := by decide
    have ed : isCommentOrBlank deleteStatisticsLine = false := by decide
    simp only [clearLines, List.cons_append, List.nil_append, List.dropWhile_cons,
      e1, e2, ed, eq_self_iff_true, if_true, Bool.false_eq_true, if_false,
      List.take_succ_cons, List.take_zero]
  · unfold mainSQLLines
    simp only [if_true]
    have hh := notDelete_headerList p.generatedAt p.sourceName
      (isoDate ((readings.head?.map Reading.timestamp).getD 0) ++
        (" to " ++ isoDate ((readings.getLast?.map Reading.timestamp).getD 0)))
      (toString readings.length)
      (toString (aggregateToDaily mo readings).length)
    have hc1 : clearLines.countP isDeleteLine = 2 := by decide
    have hc2 : metaLines.countP isDeleteLine = 0 := by decide
    have hc3 : hourlyBanner.countP isDeleteLine = 0 := by decide
    have hc4 : dailyBanner.countP isDeleteLine = 0 := by decide
    have hc5 : ([""] : List String).countP isDeleteLine = 0 := by decide
    have hh0 : List.countP isDeleteLine
        ["-- Green Button to Home Assistant Statistics Import",
         "-- Generated: " ++ p.generatedAt, "-- Source: " ++ p.sourceName,
         "-- Date range: " ++ (isoDate ((readings.head?.map Reading.timestamp).getD 0) ++
           (" to " ++ isoDate ((readings.getLast?.map Reading.timestamp).getD 0))),
         "-- Total hourly readings: " ++ toString readings.length,
         "-- Total daily records: " ++ toString (aggregateToDaily mo readings).length, ""]
        = 0 := List.countP_eq_zero.mpr (fun l hl => by simp [hh l hl])
    simp only [List.countP_append, countP_statLines, hc1, hc2, hc3, hc4, hc5, hh0]
  · unfold mainSQLLines
    simp only [Bool.false_eq_true, if_false]
    intro l hl
    simp only [List.append_assoc, List.mem_append] at hl
    rcases hl with h | h | h | h | h | h | h | h | h | h | h | h | h | h
    · exact notDelete_headerList _ _ _ _ _ l h
    · exact (by decide : ∀ x ∈ noteLines, isDeleteLine x = false) l h
    · exact (by decide : ∀ x ∈ metaLines, isDeleteLine x = false) l h
    · exact (by decide : ∀ x ∈ [""], isDeleteLine x = false) l h
    · exact (by decide : ∀ x ∈ hourlyBanner, isDeleteLine x = false) l h
    · exact notDelete_statLines _ _ _ l h
    · exact notDelete_statLines _ _ _ l h
    · exact notDelete_statLines _ _ _ l h
    · exact notDelete_statLines _ _ _ l h
    · exact notDelete_statLines _ _ _ l h
    · exact notDelete_statLines _ _ _ l h
    · exact (by decide : ∀ x ∈ dailyBanner, isDeleteLine x = false) l h
    · exact notDelete_statLines _ _ _ l h
    · exact notDelete_statLines _ _ _ l h

/-- C9 (witness). -/
theorem claim_C9_witness :
    isDeleteLine "-- Green Button to Home Assistant Statistics Import" = false :=
  (claim_C9_clear_vs_default 0 ⟨"g", "s"⟩ []).2.2 _
    (by unfold mainSQLLines; simp)

end GB
